import Mathlib

/-!
Shallow embedding of the Elbrussoft webshop core: the data model of
src/app/models.py and the service operations of src/app/services.py
(catalog lookup, customer resolution, order creation, order status update,
and the simulated PayPal payment operations), together with proofs of the
specification's claims about them.

Conventions of the embedding:
* `datetime` values are abstract ticks (`Nat`); every `datetime.utcnow()`
  inside one service call reads the same `Env.now`.
* `Decimal` money amounts are integers (fixed-point; the scale is never
  used by the code under verification).
* Generated `uuid` fragments are supplied by the environment (`Env`), one
  field per distinct generation site in the source.
* Rows assigned a primary key by the database carry `id = some k`; an
  unsaved Python model object with `id = None` carries `id = none`.
-/

/-- The `PaymentStatus` enum of models.py. -/
inductive PaymentStatus where
  | PENDING
  | COMPLETED
  | FAILED
  | CANCELLED
deriving DecidableEq, Repr

/-- The `OrderStatus` enum of models.py. -/
inductive OrderStatus where
  | CREATED
  | PAYMENT_PENDING
  | PAID
  | PROCESSING
  | SHIPPED
  | DELIVERED
  | CANCELLED
deriving DecidableEq, Repr

/-- The `Product` table row of models.py. -/
structure Product where
  id : Option Nat
  name : String
  description : String
  price : Int
  is_active : Bool
  stock_quantity : Int
  sku : Option String
  category : Option String
  image_url : Option String
  created_at : Nat
  updated_at : Nat
deriving DecidableEq, Repr

/-- The `Customer` table row of models.py. -/
structure Customer where
  id : Option Nat
  email : String
  first_name : String
  last_name : String
  phone : Option String
  created_at : Nat
  updated_at : Nat
deriving DecidableEq, Repr

/-- The `Order` table row of models.py. -/
structure Order where
  id : Option Nat
  order_number : String
  customer_id : Nat
  status : OrderStatus
  total_amount : Int
  currency : String
  shipping_first_name : String
  shipping_last_name : String
  shipping_address_line1 : String
  shipping_address_line2 : Option String
  shipping_city : String
  shipping_state : String
  shipping_postal_code : String
  shipping_country : String
  created_at : Nat
  updated_at : Nat
deriving DecidableEq, Repr

/-- The `OrderItem` table row of models.py. -/
structure OrderItem where
  id : Option Nat
  order_id : Nat
  product_id : Nat
  quantity : Nat
  unit_price : Int
  total_price : Int
deriving DecidableEq, Repr

/-- The `Payment` table row of models.py.  The `payment_data` JSON blob is
an association list of string pairs (the code only ever stores string
values in it). -/
structure Payment where
  id : Option Nat
  order_id : Nat
  payment_method : String
  status : PaymentStatus
  amount : Int
  currency : String
  paypal_payment_id : Option String
  paypal_payer_id : Option String
  paypal_payment_token : Option String
  transaction_id : Option String
  payment_data : Option (List (String × String))
  created_at : Nat
  updated_at : Nat
  completed_at : Option Nat
deriving DecidableEq, Repr

/-- The `PayPalPaymentRequest` schema of models.py. -/
structure PayPalPaymentRequest where
  product_id : Nat
  customer_email : String
  customer_first_name : String
  customer_last_name : String
  shipping_address_line1 : String
  shipping_address_line2 : Option String
  shipping_city : String
  shipping_state : String
  shipping_postal_code : String
  shipping_country : String
  phone : Option String
deriving DecidableEq, Repr

/-- The `PayPalPaymentResponse` schema of models.py. -/
structure PayPalPaymentResponse where
  payment_id : String
  payment_url : String
  order_id : Nat
  status : PaymentStatus
deriving DecidableEq, Repr

/-- The `shipping_data` dict passed to `OrderService.create_order`.  The
orchestrator always populates every key, so it is a record here. -/
structure ShippingData where
  shipping_first_name : String
  shipping_last_name : String
  shipping_address_line1 : String
  shipping_address_line2 : Option String
  shipping_city : String
  shipping_state : String
  shipping_postal_code : String
  shipping_country : String
deriving DecidableEq, Repr

/-- Nondeterministic inputs of one service call: the clock and the
`uuid`-derived fragments generated at each generation site of services.py. -/
structure Env where
  now : Nat
  date_str : String
  order_uuid : String
  payment_uuid : String
  txn_uuid : String
deriving DecidableEq, Repr

/-- Modelled from the spec: the persistent store behind `get_session`
(app/database.py, not in src/).  Per spec section 5 the store is the single
shared source of truth, each `session.commit()` is a separate durable
commit point, and multi-record writes are not wrapped in one atomic
transaction.  Each table is a list of rows in insertion order with an
autoincrement counter for primary keys. -/
structure Store where
  products : List Product
  customers : List Customer
  orders : List Order
  order_items : List OrderItem
  payments : List Payment
  next_product_id : Nat
  next_customer_id : Nat
  next_order_id : Nat
  next_order_item_id : Nat
  next_payment_id : Nat
deriving DecidableEq, Repr

/-- Primary-key lookup, `session.get(Product, product_id)`. -/
def Store.getProduct (s : Store) (pid : Nat) : Option Product :=
  s.products.find? (fun p => p.id == some pid)

/-- The query `select(Customer).where(Customer.email == email)` followed by
`.first()`. -/
def Store.getCustomerByEmail (s : Store) (email : String) : Option Customer :=
  s.customers.find? (fun c => c.email == email)

/-- Primary-key lookup, `session.get(Order, order_id)`. -/
def Store.getOrder (s : Store) (oid : Nat) : Option Order :=
  s.orders.find? (fun o => o.id == some oid)

/-- The query `select(Payment).where(Payment.paypal_payment_id == payment_id)`
followed by `.first()`. -/
def Store.getPaymentByPaypalId (s : Store) (pid : String) : Option Payment :=
  s.payments.find? (fun p => p.paypal_payment_id == some pid)

/-- A `session.add` + `session.commit` of a fresh `Customer` row: assigns the
next primary key and appends the row. -/
def Store.insertCustomer (s : Store) (c : Customer) : Customer × Store :=
  let c := { c with id := some s.next_customer_id }
  (c, { s with customers := s.customers ++ [c],
               next_customer_id := s.next_customer_id + 1 })

/-- A `session.add` + `session.commit` of a fresh `Order` row. -/
def Store.insertOrder (s : Store) (o : Order) : Order × Store :=
  let o := { o with id := some s.next_order_id }
  (o, { s with orders := s.orders ++ [o],
               next_order_id := s.next_order_id + 1 })

/-- A `session.add` + `session.commit` of a fresh `OrderItem` row. -/
def Store.insertOrderItem (s : Store) (it : OrderItem) : OrderItem × Store :=
  let it := { it with id := some s.next_order_item_id }
  (it, { s with order_items := s.order_items ++ [it],
                next_order_item_id := s.next_order_item_id + 1 })

/-- A `session.add` + `session.commit` of a fresh `Payment` row. -/
def Store.insertPayment (s : Store) (p : Payment) : Payment × Store :=
  let p := { p with id := some s.next_payment_id }
  (p, { s with payments := s.payments ++ [p],
               next_payment_id := s.next_payment_id + 1 })

/-- A `session.add` + `session.commit` of an already-persisted `Order`:
an UPDATE of the row with the same primary key. -/
def Store.saveOrder (s : Store) (o : Order) : Store :=
  { s with orders := s.orders.map (fun x => if x.id == o.id then o else x) }

/-- A `session.add` + `session.commit` of an already-persisted `Payment`. -/
def Store.savePayment (s : Store) (p : Payment) : Store :=
  { s with payments := s.payments.map (fun x => if x.id == p.id then p else x) }

/-- Function `ProductService.get_product_by_id` of services.py. -/
def ProductService.get_product_by_id (s : Store) (product_id : Nat) : Option Product :=
  s.getProduct product_id

/-- Function `CustomerService.get_or_create_customer` of services.py. -/
def CustomerService.get_or_create_customer (s : Store) (env : Env)
    (email first_name last_name : String) (phone : Option String) :
    Customer × Store :=
  match s.getCustomerByEmail email with
  | some existing_customer => (existing_customer, s)
  | none =>
      let customer : Customer :=
        { id := none, email := email, first_name := first_name,
          last_name := last_name, phone := phone,
          created_at := env.now, updated_at := env.now }
      s.insertCustomer customer

/-- Function `OrderService.create_order` of services.py.  A raised `ValueError`
becomes `Except.error`; the store is threaded through even on failure
because commits preceding the raise are durable. -/
def OrderService.create_order (s : Store) (env : Env) (customer : Customer)
    (product : Product) (shipping_data : ShippingData) :
    Except String Order × Store :=
  let order_number := "ORD-" ++ env.date_str ++ "-" ++ env.order_uuid
  match customer.id with
  | none => (Except.error "Customer must have an ID", s)
  | some customer_id =>
      let order : Order :=
        { id := none, order_number := order_number,
          customer_id := customer_id, status := OrderStatus.CREATED,
          total_amount := product.price, currency := "USD",
          shipping_first_name := shipping_data.shipping_first_name,
          shipping_last_name := shipping_data.shipping_last_name,
          shipping_address_line1 := shipping_data.shipping_address_line1,
          shipping_address_line2 := shipping_data.shipping_address_line2,
          shipping_city := shipping_data.shipping_city,
          shipping_state := shipping_data.shipping_state,
          shipping_postal_code := shipping_data.shipping_postal_code,
          shipping_country := shipping_data.shipping_country,
          created_at := env.now, updated_at := env.now }
      let (order, s) := s.insertOrder order
      match order.id with
      | none => (Except.error "Order must have an ID after creation", s)
      | some order_id =>
          match product.id with
          | none => (Except.error "Product must have an ID", s)
          | some product_id =>
              let order_item : OrderItem :=
                { id := none, order_id := order_id, product_id := product_id,
                  quantity := 1, unit_price := product.price,
                  total_price := product.price }
              let (_, s) := s.insertOrderItem order_item
              (Except.ok order, s)

/-- Function `OrderService.update_order_status` of services.py. -/
def OrderService.update_order_status (s : Store) (env : Env) (order_id : Nat)
    (status : OrderStatus) : Option Order × Store :=
  match s.getOrder order_id with
  | none => (none, s)
  | some order =>
      let order := { order with status := status, updated_at := env.now }
      (some order, s.saveOrder order)

/-- Function `PaymentService.create_paypal_payment` of services.py.  The
enclosing
`try/except` turns any raised error into a `None` result, keeping the
commits already made. -/
def PaymentService.create_paypal_payment (s : Store) (env : Env)
    (request : PayPalPaymentRequest) : Option PayPalPaymentResponse × Store :=
  match ProductService.get_product_by_id s request.product_id with
  | none => (none, s)
  | some product =>
      if !product.is_active then (none, s)
      else if product.stock_quantity ≤ 0 then (none, s)
      else
        let (customer, s) := CustomerService.get_or_create_customer s env
          request.customer_email request.customer_first_name
          request.customer_last_name request.phone
        let shipping_data : ShippingData :=
          { shipping_first_name := request.customer_first_name,
            shipping_last_name := request.customer_last_name,
            shipping_address_line1 := request.shipping_address_line1,
            shipping_address_line2 := request.shipping_address_line2,
            shipping_city := request.shipping_city,
            shipping_state := request.shipping_state,
            shipping_postal_code := request.shipping_postal_code,
            shipping_country := request.shipping_country }
        match OrderService.create_order s env customer product shipping_data with
        | (Except.error _, s) => (none, s)
        | (Except.ok order, s) =>
            let payment_id := "PAY-" ++ env.payment_uuid
            let payment_url :=
              "https://sandbox.paypal.com/checkoutnow?token=" ++ payment_id
            match order.id with
            | none => (none, s)
            | some order_id =>
                let payment : Payment :=
                  { id := none, order_id := order_id,
                    payment_method := "paypal",
                    status := PaymentStatus.PENDING,
                    amount := product.price, currency := "USD",
                    paypal_payment_id := some payment_id,
                    paypal_payer_id := none,
                    paypal_payment_token := some payment_id,
                    transaction_id := none,
                    payment_data := some
                      [("product_name", product.name),
                       ("customer_email", request.customer_email),
                       ("created_via", "web_store")],
                    created_at := env.now, updated_at := env.now,
                    completed_at := none }
                let (_, s) := s.insertPayment payment
                let (_, s) := OrderService.update_order_status s env order_id
                  OrderStatus.PAYMENT_PENDING
                (some { payment_id := payment_id, payment_url := payment_url,
                        order_id := order_id, status := PaymentStatus.PENDING },
                 s)

/-- Function `PaymentService.complete_paypal_payment` of services.py.  The
source's
`if payment.order_id is not None` guard is vacuously true because
`Payment.order_id` is a non-optional column. -/
def PaymentService.complete_paypal_payment (s : Store) (env : Env)
    (payment_id payer_id : String) : Bool × Store :=
  match s.getPaymentByPaypalId payment_id with
  | none => (false, s)
  | some payment =>
      let payment :=
        { payment with
          status := PaymentStatus.COMPLETED,
          paypal_payer_id := some payer_id,
          completed_at := some env.now,
          updated_at := env.now,
          transaction_id := some ("TXN-" ++ env.txn_uuid) }
      let s := s.savePayment payment
      let (_, s) := OrderService.update_order_status s env payment.order_id
        OrderStatus.PAID
      (true, s)

/-- Function `PaymentService.cancel_paypal_payment` of services.py. -/
def PaymentService.cancel_paypal_payment (s : Store) (env : Env)
    (payment_id : String) : Bool × Store :=
  match s.getPaymentByPaypalId payment_id with
  | none => (false, s)
  | some payment =>
      let payment :=
        { payment with status := PaymentStatus.CANCELLED,
                       updated_at := env.now }
      let s := s.savePayment payment
      let (_, s) := OrderService.update_order_status s env payment.order_id
        OrderStatus.CANCELLED
      (true, s)

/-- A stored primary key is assigned and below the table's autoincrement
counter. -/
def idOk (bound : Nat) (i : Option Nat) : Bool :=
  match i with
  | some k => decide (k < bound)
  | none => false

/-- Database well-formedness: every persisted row carries an assigned
primary key strictly below its table's autoincrement counter — the
invariant any autoincrementing store maintains. -/
def Store.wfb (s : Store) : Bool :=
  s.products.all (fun p => idOk s.next_product_id p.id) &&
  s.customers.all (fun c => idOk s.next_customer_id c.id) &&
  s.orders.all (fun o => idOk s.next_order_id o.id) &&
  s.order_items.all (fun it => idOk s.next_order_item_id it.id) &&
  s.payments.all (fun p => idOk s.next_payment_id p.id)

/-! ### Concrete fixtures used by the witness theorems -/

/-- A store with no rows at all. -/
def emptyStore : Store :=
  { products := [], customers := [], orders := [], order_items := [],
    payments := [], next_product_id := 1, next_customer_id := 1,
    next_order_id := 1, next_order_item_id := 1, next_payment_id := 1 }

/-- An active, in-stock persisted product. -/
def wProduct : Product :=
  { id := some 1, name := "Widget", description := "A widget", price := 9999,
    is_active := true, stock_quantity := 5, sku := none, category := none,
    image_url := none, created_at := 0, updated_at := 0 }

/-- An active persisted product with zero stock. -/
def wProductZero : Product :=
  { id := some 2, name := "Gadget", description := "A gadget", price := 500,
    is_active := true, stock_quantity := 0, sku := none, category := none,
    image_url := none, created_at := 0, updated_at := 0 }

/-- An unsaved product object whose primary key was never assigned. -/
def wProductNoId : Product :=
  { id := none, name := "Ghost", description := "Unsaved", price := 100,
    is_active := true, stock_quantity := 1, sku := none, category := none,
    image_url := none, created_at := 0, updated_at := 0 }

/-- A persisted customer. -/
def wCustomer : Customer :=
  { id := some 1, email := "ada@example.com", first_name := "Ada",
    last_name := "Lovelace", phone := none, created_at := 0, updated_at := 0 }

/-- A persisted order linked to `wCustomer`. -/
def wOrder : Order :=
  { id := some 1, order_number := "ORD-20251001-DEADBEEF", customer_id := 1,
    status := OrderStatus.CREATED, total_amount := 9999, currency := "USD",
    shipping_first_name := "Ada", shipping_last_name := "Lovelace",
    shipping_address_line1 := "1 Main St", shipping_address_line2 := none,
    shipping_city := "London", shipping_state := "LDN",
    shipping_postal_code := "00001", shipping_country := "UK",
    created_at := 0, updated_at := 0 }

/-- A persisted pending payment linked to `wOrder`. -/
def wPayment : Payment :=
  { id := some 1, order_id := 1, payment_method := "paypal",
    status := PaymentStatus.PENDING, amount := 9999, currency := "USD",
    paypal_payment_id := some "PAY-W", paypal_payer_id := none,
    paypal_payment_token := some "PAY-W", transaction_id := none,
    payment_data := none, created_at := 0, updated_at := 0,
    completed_at := none }

/-- A small well-formed store populated with the fixtures above. -/
def wStore : Store :=
  { products := [wProduct, wProductZero], customers := [wCustomer],
    orders := [wOrder], order_items := [], payments := [wPayment],
    next_product_id := 3, next_customer_id := 2, next_order_id := 2,
    next_order_item_id := 1, next_payment_id := 2 }

/-- A concrete environment for first calls. -/
def wEnv : Env :=
  { now := 100, date_str := "20251012", order_uuid := "AB12CD34",
    payment_uuid := "WTOKEN9876543210ABCD", txn_uuid := "WTXN12345678ABCD" }

/-- A concrete environment for second calls. -/
def wEnv2 : Env :=
  { now := 200, date_str := "20251012", order_uuid := "EF56AB78",
    payment_uuid := "WTOKEN0000000000ZZZZ", txn_uuid := "WTXNZZZZ00000000" }

/-- A purchase request for `wProduct`. -/
def wReq : PayPalPaymentRequest :=
  { product_id := 1, customer_email := "ada@example.com",
    customer_first_name := "Ada", customer_last_name := "Lovelace",
    shipping_address_line1 := "1 Main St", shipping_address_line2 := none,
    shipping_city := "London", shipping_state := "LDN",
    shipping_postal_code := "00001", shipping_country := "UK", phone := none }

/-- A purchase request for the zero-stock `wProductZero`. -/
def wReqZero : PayPalPaymentRequest := { wReq with product_id := 2 }

/-- A shipping record for direct `create_order` calls. -/
def wShipping : ShippingData :=
  { shipping_first_name := "Ada", shipping_last_name := "Lovelace",
    shipping_address_line1 := "1 Main St", shipping_address_line2 := none,
    shipping_city := "London", shipping_state := "LDN",
    shipping_postal_code := "00001", shipping_country := "UK" }

/-! ### General lemmas about lookup, row update and well-formedness -/

/-- Looking a row up after a keyed in-place update: if `a` was the first
row matching `pred`, the update rewrites every row matching `key` to `b`,
`a` itself matches `key`, and `b` still matches `pred`, then the first row
matching `pred` afterwards is `b`. -/
theorem find?_map_upd {α : Type} (l : List α) (pred key : α → Bool) (a b : α)
    (hfind : l.find? pred = some a) (hkey : key a = true)
    (hpred : pred b = true) :
    (l.map (fun x => if key x then b else x)).find? pred = some b := by
  induction l with
  | nil => simp at hfind
  | cons x xs ih =>
      simp only [List.map_cons]
      by_cases hpx : pred x = true
      · rw [List.find?_cons_of_pos _ hpx] at hfind
        obtain rfl : x = a := Option.some.inj hfind
        rw [if_pos hkey, List.find?_cons_of_pos _ hpred]
      · rw [List.find?_cons_of_neg _ hpx] at hfind
        by_cases hkx : key x = true
        · rw [if_pos hkx, List.find?_cons_of_pos _ hpred]
        · rw [if_neg hkx, List.find?_cons_of_neg _ hpx]
          exact ih hfind

/-- Lookup by `find?` skips a prefix with no matches. -/
theorem find?_append_of_none {α : Type} (l1 l2 : List α) (p : α → Bool)
    (h : l1.find? p = none) : (l1 ++ l2).find? p = l2.find? p := by
  rw [List.find?_append, h, Option.none_or]

/-- A keyed in-place update touching no row of the list is the identity. -/
theorem map_upd_id {α : Type} (l : List α) (key : α → Bool) (b : α)
    (h : ∀ x ∈ l, key x = false) :
    l.map (fun x => if key x then b else x) = l := by
  induction l with
  | nil => rfl
  | cons x xs ih =>
      simp only [List.map_cons]
      rw [if_neg (by simp [h x (List.mem_cons_self x xs)])]
      rw [ih (fun y hy => h y (List.mem_cons_of_mem x hy))]

/-- Unpacking `idOk`. -/
theorem idOk_elim {bound : Nat} {i : Option Nat} (h : idOk bound i = true) :
    ∃ k, i = some k ∧ k < bound := by
  cases i with
  | none => simp [idOk] at h
  | some k => exact ⟨k, rfl, by simpa [idOk] using h⟩

/-- A well-bounded key differs from the autoincrement counter. -/
theorem idOk_beq_bound {bound : Nat} {i : Option Nat} (h : idOk bound i = true) :
    (i == some bound) = false := by
  obtain ⟨k, rfl, hk⟩ := idOk_elim h
  simp only [beq_eq_false_iff_ne, ne_eq, Option.some.injEq]
  omega

/-- The orders component of database well-formedness. -/
theorem wfb_orders {s : Store} (hwf : s.wfb = true) :
    ∀ o ∈ s.orders, idOk s.next_order_id o.id = true := by
  have h := hwf
  simp only [Store.wfb, Bool.and_eq_true, List.all_eq_true] at h
  exact h.1.1.2

/-- The customers component of database well-formedness. -/
theorem wfb_customers {s : Store} (hwf : s.wfb = true) :
    ∀ c ∈ s.customers, idOk s.next_customer_id c.id = true := by
  have h := hwf
  simp only [Store.wfb, Bool.and_eq_true, List.all_eq_true] at h
  exact h.1.1.1.2

/-- Behaviour of `get_or_create_customer` when the email is already known. -/
theorem goc_eq_found (s : Store) (env : Env) (em fn ln : String)
    (ph : Option String) (c : Customer) (h : s.getCustomerByEmail em = some c) :
    CustomerService.get_or_create_customer s env em fn ln ph = (c, s) := by
  unfold CustomerService.get_or_create_customer
  rw [h]

/-- Behaviour of `get_or_create_customer` when the email is new. -/
theorem goc_eq_new (s : Store) (env : Env) (em fn ln : String)
    (ph : Option String) (h : s.getCustomerByEmail em = none) :
    CustomerService.get_or_create_customer s env em fn ln ph =
      s.insertCustomer
        { id := none, email := em, first_name := fn, last_name := ln,
          phone := ph, created_at := env.now, updated_at := env.now } := by
  unfold CustomerService.get_or_create_customer
  rw [h]

/-- Claim C9: completing an unknown payment id returns failure and performs
no writes at all — the store is returned untouched. -/
theorem claim_C9_complete_unknown_is_noop (s : Store) (env : Env)
    (payment_id payer_id : String)
    (h : s.getPaymentByPaypalId payment_id = none) :
    PaymentService.complete_paypal_payment s env payment_id payer_id =
      (false, s) := by
  unfold PaymentService.complete_paypal_payment
  rw [h]

/-- Witness for C9 on the empty store. -/
theorem claim_C9_witness :
    emptyStore.getPaymentByPaypalId "PAY-NOPE" = none ∧
    PaymentService.complete_paypal_payment emptyStore wEnv "PAY-NOPE" "PAYER1" =
      (false, emptyStore) :=
  ⟨rfl, claim_C9_complete_unknown_is_noop emptyStore wEnv "PAY-NOPE" "PAYER1" rfl⟩

/-- Claim C4: purchasing a product whose stock_quantity is 0 fails with the
`None` signal and leaves the store — in particular its orders — unchanged. -/
theorem claim_C4_zero_stock_purchase_is_noop (s : Store) (env : Env)
    (request : PayPalPaymentRequest) (p : Product)
    (hp : s.getProduct request.product_id = some p)
    (hstock : p.stock_quantity = 0) :
    PaymentService.create_paypal_payment s env request = (none, s) := by
  unfold PaymentService.create_paypal_payment ProductService.get_product_by_id
  rw [hp]
  cases ha : p.is_active <;> simp [ha, hstock]

/-- Witness for C4 on the zero-stock fixture product. -/
theorem claim_C4_witness :
    wStore.getProduct 2 = some wProductZero ∧
    wProductZero.stock_quantity = 0 ∧
    PaymentService.create_paypal_payment wStore wEnv wReqZero =
      (none, wStore) :=
  ⟨rfl, rfl,
   claim_C4_zero_stock_purchase_is_noop wStore wEnv wReqZero wProductZero
     rfl rfl⟩

/-- Claim C6: `update_order_status` enforces no transition legality — for a
present order any status overwrites any status and is persisted; for an
absent order id the call returns the absence signal and changes nothing. -/
theorem claim_C6_status_overwrite_unguarded (s : Store) (env : Env)
    (order_id : Nat) (st : OrderStatus) :
    (∀ o, s.getOrder order_id = some o →
      (OrderService.update_order_status s env order_id st).1 =
        some { o with status := st, updated_at := env.now } ∧
      ((OrderService.update_order_status s env order_id st).2).getOrder
          order_id =
        some { o with status := st, updated_at := env.now }) ∧
    (s.getOrder order_id = none →
      OrderService.update_order_status s env order_id st = (none, s)) := by
  constructor
  · intro o ho
    unfold OrderService.update_order_status
    rw [ho]
    refine ⟨rfl, ?_⟩
    simp only [Store.getOrder, Store.saveOrder] at ho ⊢
    apply find?_map_upd _ _ _ o _ ho
    · simp
    · simpa using List.find?_some ho
  · intro h
    unfold OrderService.update_order_status
    rw [h]

/-- Witness for C6: overwrite CREATED with DELIVERED on the fixture order,
and observe the absence signal for an unknown id. -/
theorem claim_C6_witness :
    wStore.getOrder 1 = some wOrder ∧
    (OrderService.update_order_status wStore wEnv 1 OrderStatus.DELIVERED).1 =
      some { wOrder with status := OrderStatus.DELIVERED,
                         updated_at := wEnv.now } ∧
    ((OrderService.update_order_status wStore wEnv 1
        OrderStatus.DELIVERED).2).getOrder 1 =
      some { wOrder with status := OrderStatus.DELIVERED,
                         updated_at := wEnv.now } ∧
    wStore.getOrder 77 = none ∧
    OrderService.update_order_status wStore wEnv 77 OrderStatus.PAID =
      (none, wStore) := by
  refine ⟨rfl, ?_, ?_, rfl, ?_⟩
  · exact ((claim_C6_status_overwrite_unguarded wStore wEnv 1
      OrderStatus.DELIVERED).1 wOrder rfl).1
  · exact ((claim_C6_status_overwrite_unguarded wStore wEnv 1
      OrderStatus.DELIVERED).1 wOrder rfl).2
  · exact (claim_C6_status_overwrite_unguarded wStore wEnv 77
      OrderStatus.PAID).2 rfl

/-- Claim C7: `get_or_create_customer` called twice with the same email
returns a record with the same id both times, and the second call leaves
the store exactly as the first call left it, even when the supplied names
and phone differ. -/
theorem claim_C7_get_or_create_first_write_wins (s : Store) (e1 e2 : Env)
    (email fn1 ln1 fn2 ln2 : String) (ph1 ph2 : Option String) :
    (CustomerService.get_or_create_customer
        (CustomerService.get_or_create_customer s e1 email fn1 ln1 ph1).2
        e2 email fn2 ln2 ph2).1.id =
      (CustomerService.get_or_create_customer s e1 email fn1 ln1 ph1).1.id ∧
    (CustomerService.get_or_create_customer
        (CustomerService.get_or_create_customer s e1 email fn1 ln1 ph1).2
        e2 email fn2 ln2 ph2).2 =
      (CustomerService.get_or_create_customer s e1 email fn1 ln1 ph1).2 := by
  cases hf : s.getCustomerByEmail email with
  | some c =>
      rw [goc_eq_found s e1 email fn1 ln1 ph1 c hf]
      rw [goc_eq_found s e2 email fn2 ln2 ph2 c hf]
      exact ⟨rfl, rfl⟩
  | none =>
      rw [goc_eq_new s e1 email fn1 ln1 ph1 hf]
      have hf2 :
          (s.insertCustomer
            { id := none, email := email, first_name := fn1,
              last_name := ln1, phone := ph1, created_at := e1.now,
              updated_at := e1.now }).2.getCustomerByEmail email =
          some (s.insertCustomer
            { id := none, email := email, first_name := fn1,
              last_name := ln1, phone := ph1, created_at := e1.now,
              updated_at := e1.now }).1 := by
        simp only [Store.insertCustomer, Store.getCustomerByEmail] at hf ⊢
        rw [find?_append_of_none _ _ _ hf]
        simp
      rw [goc_eq_found _ e2 email fn2 ln2 ph2 _ hf2]
      exact ⟨rfl, rfl⟩

/-- Saving a payment row does not touch order lookups. -/
theorem Store.getOrder_savePayment (s : Store) (p : Payment) (oid : Nat) :
    (s.savePayment p).getOrder oid = s.getOrder oid := rfl

/-- Saving an order row does not touch payment lookups. -/
theorem Store.getPaymentByPaypalId_saveOrder (s : Store) (o : Order)
    (pid : String) :
    (s.saveOrder o).getPaymentByPaypalId pid = s.getPaymentByPaypalId pid := rfl

/-- Claim C10: `create_order` on a customer with an id but a product whose
id was never assigned raises the precondition error only after the Order
row has been committed — the error is reported, yet a fresh CREATED order
remains persisted and no OrderItem row was written. -/
theorem claim_C10_nonatomic_order_persist (s : Store) (env : Env)
    (customer : Customer) (product : Product) (sh : ShippingData) (cid : Nat)
    (hc : customer.id = some cid) (hp : product.id = none) :
    (OrderService.create_order s env customer product sh).1 =
      Except.error "Product must have an ID" ∧
    ∃ o, ((OrderService.create_order s env customer product sh).2).orders =
        s.orders ++ [o] ∧
      o.status = OrderStatus.CREATED ∧
      ((OrderService.create_order s env customer product sh).2).order_items =
        s.order_items := by
  unfold OrderService.create_order
  rw [hc]
  simp only [Store.insertOrder, hp]
  exact ⟨trivial, _, rfl, rfl, trivial⟩

/-- Witness for C10 with the unsaved fixture product. -/
theorem claim_C10_witness :
    wCustomer.id = some 1 ∧ wProductNoId.id = none ∧
    ((OrderService.create_order wStore wEnv wCustomer wProductNoId
        wShipping).1 = Except.error "Product must have an ID" ∧
     ∃ o, ((OrderService.create_order wStore wEnv wCustomer wProductNoId
          wShipping).2).orders = wStore.orders ++ [o] ∧
        o.status = OrderStatus.CREATED ∧
        ((OrderService.create_order wStore wEnv wCustomer wProductNoId
            wShipping).2).order_items = wStore.order_items) :=
  ⟨rfl, rfl,
   claim_C10_nonatomic_order_persist wStore wEnv wCustomer wProductNoId
     wShipping 1 rfl rfl⟩

/-- Closed-form behaviour of a successful `complete_paypal_payment`: the
first payment row matching the provider id becomes COMPLETED with the
supplied payer, a completion timestamp and a fresh transaction id, and the
linked order row becomes PAID. -/
theorem complete_post (s : Store) (env : Env) (pid payer : String)
    (pay : Payment) (o : Order)
    (hpay : s.getPaymentByPaypalId pid = some pay)
    (ho : s.getOrder pay.order_id = some o) :
    (PaymentService.complete_paypal_payment s env pid payer).1 = true ∧
    ((PaymentService.complete_paypal_payment s env pid
        payer).2).getPaymentByPaypalId pid =
      some { pay with status := PaymentStatus.COMPLETED,
                      paypal_payer_id := some payer,
                      completed_at := some env.now, updated_at := env.now,
                      transaction_id := some ("TXN-" ++ env.txn_uuid) } ∧
    ((PaymentService.complete_paypal_payment s env pid payer).2).getOrder
        pay.order_id =
      some { o with status := OrderStatus.PAID, updated_at := env.now } := by
  have hpred : (pay.paypal_payment_id == some pid) = true := by
    have h := hpay
    simp only [Store.getPaymentByPaypalId] at h
    have h3 := List.find?_some h
    simpa using h3
  have hopred : (o.id == some pay.order_id) = true := by
    have h := ho
    simp only [Store.getOrder] at h
    have h3 := List.find?_some h
    simpa using h3
  have hpay2 := hpay
  have ho2 := ho
  simp only [Store.getPaymentByPaypalId] at hpay2
  simp only [Store.getOrder] at ho2
  unfold PaymentService.complete_paypal_payment
  rw [hpay]
  simp only [OrderService.update_order_status, Store.getOrder_savePayment]
  rw [ho]
  refine ⟨trivial, ?_, ?_⟩
  · rw [Store.getPaymentByPaypalId_saveOrder]
    simp only [Store.savePayment, Store.getPaymentByPaypalId]
    exact find?_map_upd _ _ _ pay _ hpay2 (by simp) (by simpa using hpred)
  · simp only [Store.saveOrder, Store.getOrder, Store.savePayment]
    exact find?_map_upd _ _ _ o _ ho2 (by simp) (by simpa using hopred)

/-- Closed-form behaviour of a successful `cancel_paypal_payment`: the
first payment row matching the provider id becomes CANCELLED and the
linked order row becomes CANCELLED. -/
theorem cancel_post (s : Store) (env : Env) (pid : String)
    (pay : Payment) (o : Order)
    (hpay : s.getPaymentByPaypalId pid = some pay)
    (ho : s.getOrder pay.order_id = some o) :
    (PaymentService.cancel_paypal_payment s env pid).1 = true ∧
    ((PaymentService.cancel_paypal_payment s env pid).2).getPaymentByPaypalId
        pid =
      some { pay with status := PaymentStatus.CANCELLED,
                      updated_at := env.now } ∧
    ((PaymentService.cancel_paypal_payment s env pid).2).getOrder
        pay.order_id =
      some { o with status := OrderStatus.CANCELLED,
                    updated_at := env.now } := by
  have hpred : (pay.paypal_payment_id == some pid) = true := by
    have h := hpay
    simp only [Store.getPaymentByPaypalId] at h
    have h3 := List.find?_some h
    simpa using h3
  have hopred : (o.id == some pay.order_id) = true := by
    have h := ho
    simp only [Store.getOrder] at h
    have h3 := List.find?_some h
    simpa using h3
  have hpay2 := hpay
  have ho2 := ho
  simp only [Store.getPaymentByPaypalId] at hpay2
  simp only [Store.getOrder] at ho2
  unfold PaymentService.cancel_paypal_payment
  rw [hpay]
  simp only [OrderService.update_order_status, Store.getOrder_savePayment]
  rw [ho]
  refine ⟨trivial, ?_, ?_⟩
  · rw [Store.getPaymentByPaypalId_saveOrder]
    simp only [Store.savePayment, Store.getPaymentByPaypalId]
    exact find?_map_upd _ _ _ pay _ hpay2 (by simp) (by simpa using hpred)
  · simp only [Store.saveOrder, Store.getOrder, Store.savePayment]
    exact find?_map_upd _ _ _ o _ ho2 (by simp) (by simpa using hopred)

/-- Claim C5: for any payment present in the store with its linked order
present, `complete` returns true, and afterwards the payment is COMPLETED
with the supplied payer id, a set completion timestamp and a non-empty
transaction id, and the linked order is PAID. -/
theorem claim_C5_complete_success (s : Store) (env : Env)
    (pid payer : String) (pay : Payment) (o : Order)
    (hpay : s.getPaymentByPaypalId pid = some pay)
    (ho : s.getOrder pay.order_id = some o) :
    (PaymentService.complete_paypal_payment s env pid payer).1 = true ∧
    (∃ p2, ((PaymentService.complete_paypal_payment s env pid
          payer).2).getPaymentByPaypalId pid = some p2 ∧
        p2.status = PaymentStatus.COMPLETED ∧
        p2.paypal_payer_id = some payer ∧
        p2.completed_at = some env.now ∧
        ∃ t, p2.transaction_id = some t ∧ 0 < t.length) ∧
    ∃ o2, ((PaymentService.complete_paypal_payment s env pid
        payer).2).getOrder pay.order_id = some o2 ∧
      o2.status = OrderStatus.PAID := by
  obtain ⟨h1, h2, h3⟩ := complete_post s env pid payer pay o hpay ho
  have hlen : 0 < ("TXN-" ++ env.txn_uuid).length := by
    rw [String.length_append]
    have h4 : "TXN-".length = 4 := rfl
    omega
  exact ⟨h1, ⟨_, h2, rfl, rfl, rfl, ⟨_, rfl, hlen⟩⟩, ⟨_, h3, rfl⟩⟩

/-- Witness for C5 on the fixture store. -/
theorem claim_C5_witness :
    wStore.getPaymentByPaypalId "PAY-W" = some wPayment ∧
    wStore.getOrder wPayment.order_id = some wOrder ∧
    ((PaymentService.complete_paypal_payment wStore wEnv "PAY-W"
        "PAYER9").1 = true ∧
     (∃ p2, ((PaymentService.complete_paypal_payment wStore wEnv "PAY-W"
           "PAYER9").2).getPaymentByPaypalId "PAY-W" = some p2 ∧
         p2.status = PaymentStatus.COMPLETED ∧
         p2.paypal_payer_id = some "PAYER9" ∧
         p2.completed_at = some wEnv.now ∧
         ∃ t, p2.transaction_id = some t ∧ 0 < t.length) ∧
     ∃ o2, ((PaymentService.complete_paypal_payment wStore wEnv "PAY-W"
         "PAYER9").2).getOrder wPayment.order_id = some o2 ∧
       o2.status = OrderStatus.PAID) :=
  ⟨rfl, rfl,
   claim_C5_complete_success wStore wEnv "PAY-W" "PAYER9" wPayment wOrder
     rfl rfl⟩

/-- Claim C2: neither `complete` nor `cancel` checks the payment's current
status, so running them in sequence leaves the linked order in whatever
status the later call writes: CANCELLED after complete-then-cancel, PAID
after cancel-then-complete. -/
theorem claim_C2_last_writer_wins (s : Store) (e1 e2 : Env)
    (pid payer : String) (pay : Payment) (o : Order)
    (hpay : s.getPaymentByPaypalId pid = some pay)
    (ho : s.getOrder pay.order_id = some o) :
    (∃ o2, ((PaymentService.cancel_paypal_payment
        (PaymentService.complete_paypal_payment s e1 pid payer).2 e2
        pid).2).getOrder pay.order_id = some o2 ∧
      o2.status = OrderStatus.CANCELLED) ∧
    (∃ o2, ((PaymentService.complete_paypal_payment
        (PaymentService.cancel_paypal_payment s e1 pid).2 e2 pid
        payer).2).getOrder pay.order_id = some o2 ∧
      o2.status = OrderStatus.PAID) := by
  constructor
  · obtain ⟨-, h2, h3⟩ := complete_post s e1 pid payer pay o hpay ho
    obtain ⟨-, -, h6⟩ := cancel_post _ e2 pid _ _ h2 h3
    exact ⟨_, h6, rfl⟩
  · obtain ⟨-, h2, h3⟩ := cancel_post s e1 pid pay o hpay ho
    obtain ⟨-, -, h6⟩ := complete_post _ e2 pid payer _ _ h2 h3
    exact ⟨_, h6, rfl⟩

/-- Witness for C2 on the fixture store. -/
theorem claim_C2_witness :
    wStore.getPaymentByPaypalId "PAY-W" = some wPayment ∧
    wStore.getOrder wPayment.order_id = some wOrder ∧
    ((∃ o2, ((PaymentService.cancel_paypal_payment
        (PaymentService.complete_paypal_payment wStore wEnv "PAY-W"
          "PAYER9").2 wEnv2 "PAY-W").2).getOrder wPayment.order_id =
          some o2 ∧
       o2.status = OrderStatus.CANCELLED) ∧
     (∃ o2, ((PaymentService.complete_paypal_payment
        (PaymentService.cancel_paypal_payment wStore wEnv "PAY-W").2 wEnv2
        "PAY-W" "PAYER9").2).getOrder wPayment.order_id = some o2 ∧
       o2.status = OrderStatus.PAID)) :=
  ⟨rfl, rfl,
   claim_C2_last_writer_wins wStore wEnv wEnv2 "PAY-W" "PAYER9" wPayment
     wOrder rfl rfl⟩


theorem goc_products (s : Store) (env : Env) (em fn ln : String)
    (ph : Option String) :
    ((CustomerService.get_or_create_customer s env em fn ln ph).2).products =
      s.products := by
  cases hf : s.getCustomerByEmail em with
  | none => rw [goc_eq_new s env em fn ln ph hf]; rfl
  | some c => rw [goc_eq_found s env em fn ln ph c hf]

theorem create_order_products (s : Store) (env : Env) (c : Customer)
    (p : Product) (sh : ShippingData) :
    ((OrderService.create_order s env c p sh).2).products = s.products := by
  unfold OrderService.create_order
  cases hc : c.id with
  | none => rfl
  | some cid =>
      simp only [Store.insertOrder]
      cases hp : p.id with
      | none => rfl
      | some pid2 => rfl

theorem update_order_status_products (s : Store) (env : Env) (oid : Nat)
    (st : OrderStatus) :
    ((OrderService.update_order_status s env oid st).2).products =
      s.products := by
  unfold OrderService.update_order_status
  cases h : s.getOrder oid with
  | none => rfl
  | some o => rfl

theorem complete_products (s : Store) (env : Env) (pid payer : String) :
    ((PaymentService.complete_paypal_payment s env pid payer).2).products =
      s.products := by
  unfold PaymentService.complete_paypal_payment
  cases h : s.getPaymentByPaypalId pid with
  | none => rfl
  | some pay => exact update_order_status_products _ env pay.order_id OrderStatus.PAID

theorem cancel_products (s : Store) (env : Env) (pid : String) :
    ((PaymentService.cancel_paypal_payment s env pid).2).products =
      s.products := by
  unfold PaymentService.cancel_paypal_payment
  cases h : s.getPaymentByPaypalId pid with
  | none => rfl
  | some pay => exact update_order_status_products _ env pay.order_id OrderStatus.CANCELLED

theorem cpp_products (s : Store) (env : Env) (request : PayPalPaymentRequest) :
    ((PaymentService.create_paypal_payment s env request).2).products =
      s.products := by
  unfold PaymentService.create_paypal_payment
  cases hp : ProductService.get_product_by_id s request.product_id with
  | none => rfl
  | some p =>
      simp only []
      by_cases ha : (!p.is_active) = true
      · rw [if_pos ha]
      · rw [if_neg ha]
        by_cases hs : p.stock_quantity ≤ 0
        · rw [if_pos hs]
        · rw [if_neg hs]
          rcases hgoc : CustomerService.get_or_create_customer s env
              request.customer_email request.customer_first_name
              request.customer_last_name request.phone with ⟨c1, s1⟩
          simp only []
          have h1 : s1.products = s.products := by
            have h3 := goc_products s env request.customer_email
              request.customer_first_name request.customer_last_name
              request.phone
            rw [hgoc] at h3
            exact h3
          rcases hco : OrderService.create_order s1 env c1 p
              { shipping_first_name := request.customer_first_name,
                shipping_last_name := request.customer_last_name,
                shipping_address_line1 := request.shipping_address_line1,
                shipping_address_line2 := request.shipping_address_line2,
                shipping_city := request.shipping_city,
                shipping_state := request.shipping_state,
                shipping_postal_code := request.shipping_postal_code,
                shipping_country := request.shipping_country } with ⟨r, s2⟩
          have h2 : s2.products = s.products := by
            have h3 := create_order_products s1 env c1 p
              { shipping_first_name := request.customer_first_name,
                shipping_last_name := request.customer_last_name,
                shipping_address_line1 := request.shipping_address_line1,
                shipping_address_line2 := request.shipping_address_line2,
                shipping_city := request.shipping_city,
                shipping_state := request.shipping_state,
                shipping_postal_code := request.shipping_postal_code,
                shipping_country := request.shipping_country }
            rw [hco] at h3
            rw [h3, h1]
          cases r with
          | error e => exact h2
          | ok order =>
              simp only []
              cases ho : order.id with
              | none => exact h2
              | some oid =>
                  simp only [Store.insertPayment]
                  rw [update_order_status_products]
                  exact h2

theorem goc_id_assigned (s : Store) (env : Env) (em fn ln : String)
    (ph : Option String) (hwf : s.wfb = true) :
    ∃ cid, ((CustomerService.get_or_create_customer s env em fn ln
      ph).1).id = some cid := by
  cases hf : s.getCustomerByEmail em with
  | some c =>
      rw [goc_eq_found s env em fn ln ph c hf]
      have hmem : c ∈ s.customers := by
        have h := hf
        simp only [Store.getCustomerByEmail] at h
        exact List.mem_of_find?_eq_some h
      obtain ⟨k, hk, -⟩ := idOk_elim (wfb_customers hwf c hmem)
      exact ⟨k, hk⟩
  | none =>
      rw [goc_eq_new s env em fn ln ph hf]
      exact ⟨s.next_customer_id, rfl⟩

theorem goc_frame (s : Store) (env : Env) (em fn ln : String)
    (ph : Option String) :
    ((CustomerService.get_or_create_customer s env em fn ln ph).2).orders =
      s.orders ∧
    ((CustomerService.get_or_create_customer s env em fn ln
      ph).2).order_items = s.order_items ∧
    ((CustomerService.get_or_create_customer s env em fn ln
      ph).2).next_order_id = s.next_order_id ∧
    ((CustomerService.get_or_create_customer s env em fn ln
      ph).2).next_order_item_id = s.next_order_item_id := by
  cases hf : s.getCustomerByEmail em with
  | some c =>
      rw [goc_eq_found s env em fn ln ph c hf]
      exact ⟨rfl, rfl, rfl, rfl⟩
  | none =>
      rw [goc_eq_new s env em fn ln ph hf]
      exact ⟨rfl, rfl, rfl, rfl⟩

theorem create_order_ok (s : Store) (env : Env) (c : Customer) (p : Product)
    (sh : ShippingData) (cid pid2 : Nat)
    (hc : c.id = some cid) (hp : p.id = some pid2) :
    OrderService.create_order s env c p sh =
      (Except.ok
        { id := some s.next_order_id,
          order_number := "ORD-" ++ env.date_str ++ "-" ++ env.order_uuid,
          customer_id := cid, status := OrderStatus.CREATED,
          total_amount := p.price, currency := "USD",
          shipping_first_name := sh.shipping_first_name,
          shipping_last_name := sh.shipping_last_name,
          shipping_address_line1 := sh.shipping_address_line1,
          shipping_address_line2 := sh.shipping_address_line2,
          shipping_city := sh.shipping_city,
          shipping_state := sh.shipping_state,
          shipping_postal_code := sh.shipping_postal_code,
          shipping_country := sh.shipping_country,
          created_at := env.now, updated_at := env.now },
       { s with
         orders := s.orders ++
           [{ id := some s.next_order_id,
              order_number := "ORD-" ++ env.date_str ++ "-" ++ env.order_uuid,
              customer_id := cid, status := OrderStatus.CREATED,
              total_amount := p.price, currency := "USD",
              shipping_first_name := sh.shipping_first_name,
              shipping_last_name := sh.shipping_last_name,
              shipping_address_line1 := sh.shipping_address_line1,
              shipping_address_line2 := sh.shipping_address_line2,
              shipping_city := sh.shipping_city,
              shipping_state := sh.shipping_state,
              shipping_postal_code := sh.shipping_postal_code,
              shipping_country := sh.shipping_country,
              created_at := env.now, updated_at := env.now }],
         next_order_id := s.next_order_id + 1,
         order_items := s.order_items ++
           [{ id := some s.next_order_item_id, order_id := s.next_order_id,
              product_id := pid2, quantity := 1, unit_price := p.price,
              total_price := p.price }],
         next_order_item_id := s.next_order_item_id + 1 }) := by
  unfold OrderService.create_order
  rw [hc]
  simp only [Store.insertOrder, hp, Store.insertOrderItem]

theorem cpp_success (s : Store) (env : Env) (request : PayPalPaymentRequest)
    (p : Product) (hp : s.getProduct request.product_id = some p)
    (ha : p.is_active = true) (hs : ¬ p.stock_quantity ≤ 0)
    (hwf : s.wfb = true) :
    ((PaymentService.create_paypal_payment s env request).1).isSome = true ∧
    ∃ o it,
      ((PaymentService.create_paypal_payment s env request).2).orders =
        s.orders ++ [o] ∧
      o.id = some s.next_order_id ∧
      o.status = OrderStatus.PAYMENT_PENDING ∧
      ((PaymentService.create_paypal_payment s env request).2).order_items =
        s.order_items ++ [it] ∧
      it.order_id = s.next_order_id ∧ it.quantity = 1 ∧
      it.unit_price = p.price ∧ it.total_price = p.price := by
  have hpid : p.id = some request.product_id := by
    have h := hp
    simp only [Store.getProduct] at h
    have h3 := List.find?_some h
    simpa using h3
  rcases hgoc : CustomerService.get_or_create_customer s env
      request.customer_email request.customer_first_name
      request.customer_last_name request.phone with ⟨c1, s1⟩
  obtain ⟨cid, hcid⟩ : ∃ cid, c1.id = some cid := by
    have h := goc_id_assigned s env request.customer_email
      request.customer_first_name request.customer_last_name request.phone hwf
    rw [hgoc] at h
    exact h
  have hfr := goc_frame s env request.customer_email
    request.customer_first_name request.customer_last_name request.phone
  rw [hgoc] at hfr
  obtain ⟨hfo, hfi, hfno, hfni⟩ := hfr
  have hfresh : ∀ x ∈ s1.orders, (x.id == some s1.next_order_id) = false := by
    intro x hx
    rw [hfo] at hx
    rw [hfno]
    exact idOk_beq_bound (wfb_orders hwf x hx)
  have hnone : s1.orders.find?
      (fun o : Order => o.id == some s1.next_order_id) = none :=
    List.find?_eq_none.mpr (fun x hx => by simp [hfresh x hx])
  unfold PaymentService.create_paypal_payment ProductService.get_product_by_id
  rw [hp]
  simp only []
  rw [if_neg (show ¬ (!p.is_active) = true by simp [ha])]
  rw [if_neg hs]
  rw [hgoc]
  simp only []
  rw [create_order_ok s1 env c1 p
    { shipping_first_name := request.customer_first_name,
      shipping_last_name := request.customer_last_name,
      shipping_address_line1 := request.shipping_address_line1,
      shipping_address_line2 := request.shipping_address_line2,
      shipping_city := request.shipping_city,
      shipping_state := request.shipping_state,
      shipping_postal_code := request.shipping_postal_code,
      shipping_country := request.shipping_country } cid request.product_id
    hcid hpid]
  simp only [Store.insertPayment, OrderService.update_order_status,
    Store.getOrder]
  rw [find?_append_of_none _ _ _ hnone]
  rw [List.find?_cons_of_pos _ (by simp)]
  simp only [Store.saveOrder]
  rw [List.map_append]
  rw [map_upd_id _ _ _ hfresh]
  simp only [List.map_cons, List.map_nil, beq_self_eq_true, if_true]
  rw [hfo, hfi, hfno, hfni]
  exact ⟨rfl, _, _, rfl, rfl, rfl, rfl, rfl, rfl, rfl, rfl⟩

/-- Claim C8: no checkout or payment operation ever modifies a Product
row — the products table (hence every product's stock_quantity and all
other fields) is identical before and after `create_paypal_payment`
(successful or failed), `complete_paypal_payment` and
`cancel_paypal_payment`: stock is checked but never decremented. -/
theorem claim_C8_products_never_modified (s : Store) (env : Env)
    (request : PayPalPaymentRequest) (pid payer : String) :
    ((PaymentService.create_paypal_payment s env request).2).products =
      s.products ∧
    ((PaymentService.complete_paypal_payment s env pid payer).2).products =
      s.products ∧
    ((PaymentService.cancel_paypal_payment s env pid).2).products =
      s.products :=
  ⟨cpp_products s env request, complete_products s env pid payer,
   cancel_products s env pid⟩

/-- Claim C1: a checkout call against a present, active product with stock
at least 1, on a well-formed store, succeeds and appends exactly one new
Order — in PAYMENT_PENDING status after the call — and exactly one new
OrderItem for that order with quantity 1 and total_price equal to the
product's price at call time. -/
theorem claim_C1_purchase_creates_one_order_one_item (s : Store) (env : Env)
    (request : PayPalPaymentRequest) (p : Product)
    (hp : s.getProduct request.product_id = some p)
    (ha : p.is_active = true) (hs : 1 ≤ p.stock_quantity)
    (hwf : s.wfb = true) :
    ((PaymentService.create_paypal_payment s env request).1).isSome = true ∧
    ∃ o it oid,
      ((PaymentService.create_paypal_payment s env request).2).orders =
        s.orders ++ [o] ∧
      o.status = OrderStatus.PAYMENT_PENDING ∧ o.id = some oid ∧
      ((PaymentService.create_paypal_payment s env request).2).order_items =
        s.order_items ++ [it] ∧
      it.order_id = oid ∧ it.quantity = 1 ∧ it.total_price = p.price := by
  obtain ⟨h1, o, it, h2, h3, h4, h5, h6, h7, h8, h9⟩ :=
    cpp_success s env request p hp ha (by omega) hwf
  exact ⟨h1, o, it, s.next_order_id, h2, h4, h3, h5, h6, h7, h9⟩

/-- Witness for C1 on the fixture store and request. -/
theorem claim_C1_witness :
    wStore.getProduct 1 = some wProduct ∧
    wProduct.is_active = true ∧
    (1 : Int) ≤ wProduct.stock_quantity ∧
    wStore.wfb = true ∧
    (((PaymentService.create_paypal_payment wStore wEnv wReq).1).isSome =
        true ∧
     ∃ o it oid,
       ((PaymentService.create_paypal_payment wStore wEnv wReq).2).orders =
         wStore.orders ++ [o] ∧
       o.status = OrderStatus.PAYMENT_PENDING ∧ o.id = some oid ∧
       ((PaymentService.create_paypal_payment wStore wEnv
           wReq).2).order_items = wStore.order_items ++ [it] ∧
       it.order_id = oid ∧ it.quantity = 1 ∧
       it.total_price = wProduct.price) :=
  ⟨rfl, rfl, by decide, rfl,
   claim_C1_purchase_creates_one_order_one_item wStore wEnv wReq wProduct
     rfl rfl (by decide) rfl⟩

/-- Claim C3: on a well-formed store, `create_paypal_payment` returns the
"payment not created" signal `None` (rather than raising) exactly when the
referenced product is absent, or present but inactive, or present with
stock_quantity at most 0; for a present, active, in-stock product none of
the three checks causes failure and the call succeeds. -/
theorem claim_C3_checkout_failure_conditions (s : Store) (env : Env)
    (request : PayPalPaymentRequest) (hwf : s.wfb = true) :
    (PaymentService.create_paypal_payment s env request).1 = none ↔
      (s.getProduct request.product_id = none ∨
       ∃ p, s.getProduct request.product_id = some p ∧
         (p.is_active = false ∨ p.stock_quantity ≤ 0)) := by
  cases hp : s.getProduct request.product_id with
  | none =>
      constructor
      · intro _
        exact Or.inl rfl
      · intro _
        unfold PaymentService.create_paypal_payment
          ProductService.get_product_by_id
        rw [hp]
  | some p =>
      by_cases ha : p.is_active = true
      · by_cases hs : p.stock_quantity ≤ 0
        · constructor
          · intro _
            exact Or.inr ⟨p, rfl, Or.inr hs⟩
          · intro _
            unfold PaymentService.create_paypal_payment
              ProductService.get_product_by_id
            rw [hp]
            simp only []
            rw [if_neg (show ¬ (!p.is_active) = true by simp [ha])]
            rw [if_pos hs]
        · have hsucc := (cpp_success s env request p hp ha hs hwf).1
          constructor
          · intro hnone
            rw [hnone] at hsucc
            simp at hsucc
          · intro hcond
            rcases hcond with h | ⟨p2, hp2, hcase⟩
            · cases h
            · obtain rfl : p = p2 := Option.some.inj hp2
              rcases hcase with h | h
              · rw [ha] at h
                cases h
              · exact absurd h hs
      · constructor
        · intro _
          refine Or.inr ⟨p, rfl, Or.inl ?_⟩
          revert ha
          cases p.is_active <;> simp
        · intro _
          unfold PaymentService.create_paypal_payment
            ProductService.get_product_by_id
          rw [hp]
          simp only []
          rw [if_pos (show (!p.is_active) = true by
            revert ha
            cases p.is_active <;> simp)]

/-- Witness for C3: the iff evaluated on the fixture store at the
zero-stock product's request. -/
theorem claim_C3_witness :
    wStore.wfb = true ∧
    ((PaymentService.create_paypal_payment wStore wEnv wReqZero).1 = none ↔
      (wStore.getProduct wReqZero.product_id = none ∨
       ∃ p, wStore.getProduct wReqZero.product_id = some p ∧
         (p.is_active = false ∨ p.stock_quantity ≤ 0))) :=
  ⟨rfl, claim_C3_checkout_failure_conditions wStore wEnv wReqZero rfl⟩
